import Mathlib

/-!
Shallow embedding of the dns-smart-block classification pipeline.

The definitions below are translated from the Rust sources:
  src/queue-processor/src/main.rs, src/queue-processor/src/db.rs,
  src/blocklist-server/src/db.rs, src/log-processor/src/db.rs,
  src/classifier/src/web_classify.rs, src/classifier/src/main.rs,
  src/classifier/src/lib.rs, src/classifier/src/output.rs.

Modelling conventions:
  - Timestamps (`created_at`, `valid_on`, `valid_until`, `NOW()`) are `Nat`
    seconds; one day is 86400 seconds.
  - `f64` confidence values are modelled as `Rat` (no claim here depends on
    floating point rounding; the `as f32` narrowing in `update_projections`
    is modelled as the identity).
  - Each SQL table is a Lean list of row structures, in insertion order.
    `created_at` columns are filled with `NOW()` at insertion, so insertion
    order is compatible with `ORDER BY created_at`; `ORDER BY created_at
    DESC LIMIT 1` is modelled by taking the last inserted matching row
    (the spec, section 5, resolves same-timestamp ties by insertion order).
  - External I/O (the NATS broker, subprocess spawning, the HTTP fetch and
    the Ollama endpoint) enters the model as explicit parameters: the
    outcome of each fetch attempt, the LLM response, and the classifier
    subprocess result are inputs of the corresponding functions.
-/

namespace DnsSmartBlock

/-- The `classification_action` SQL enum: {queued, classifying, classified, error}. -/
inductive Action where
  | queued
  | classifying
  | classified
  | error
  deriving DecidableEq, Repr

/-- The `action_data` JSON payloads actually written by the pipeline:
`log-processor/db.rs` writes the empty object for `queued`;
`queue-processor/main.rs` writes {model, prompt_hash} for `classifying`,
{is_matching_site, confidence, classification_type, http_status} for
`classified`, and {error} for `error`. -/
inductive ActionData where
  | emptyObject
  | classifyingData (model promptHash : String)
  | classifiedData (isMatchingSite : Bool) (confidence : Rat)
      (classificationType : String) (httpStatus : Nat)
  | errorData (error : String)
  deriving DecidableEq, Repr

/-- One row of `domain_classification_events`. -/
structure Event where
  domain : String
  action : Action
  actionData : ActionData
  createdAt : Nat
  deriving DecidableEq, Repr

/-- One row of `prompts` (id serial, content text, hash text unique). -/
structure PromptRow where
  id : Nat
  content : String
  hash : String
  deriving DecidableEq, Repr

/-- One row of `domains` (domain text pk, last_updated). -/
structure DomainRow where
  domain : String
  lastUpdated : Nat
  deriving DecidableEq, Repr

/-- One row of `domain_classifications`. -/
structure ClassificationRow where
  domain : String
  classificationType : String
  confidence : Rat
  validOn : Nat
  validUntil : Nat
  model : String
  promptId : Nat
  createdAt : Nat
  deriving DecidableEq, Repr

/-- The relational store: the four tables of the schema, each in insertion
order. -/
structure Db where
  prompts : List PromptRow
  domains : List DomainRow
  classifications : List ClassificationRow
  events : List Event
  deriving DecidableEq, Repr

/-- Seconds per day; `Duration::days(ttl_days)` is `ttl_days * 86400` seconds. -/
def secondsPerDay : Nat := 86400

/-- The rows of `domain_classification_events` with `domain = $1`, in
insertion (= `created_at`) order. -/
def eventsFor (db : Db) (domain : String) : List Event :=
  db.events.filter (fun e => decide (e.domain = domain))

/-- queue-processor/db.rs `get_latest_event` and the identical lookup opening
log-processor/db.rs `should_queue_domain`:
`SELECT ... WHERE domain = $1 ORDER BY created_at DESC LIMIT 1`. -/
def get_latest_event (db : Db) (domain : String) : Option Event :=
  (eventsFor db domain).getLast?

/-- queue-processor/db.rs `insert_event`: append one event row with
`created_at = NOW()`. -/
def insert_event (db : Db) (domain : String) (action : Action)
    (actionData : ActionData) (now : Nat) : Db :=
  { db with events := db.events ++ [⟨domain, action, actionData, now⟩] }

/-- The next value of the `prompts.id` serial column. -/
def freshPromptId (db : Db) : Nat :=
  (db.prompts.map PromptRow.id).foldr max 0 + 1

/-- queue-processor/db.rs `ensure_prompt`: `INSERT INTO prompts ... ON
CONFLICT (hash) DO NOTHING`, then `SELECT id FROM prompts WHERE hash = $1`.
Returns the updated table and the id of the row carrying `hash`. -/
def ensure_prompt (db : Db) (content hash : String) : Db × Nat :=
  match db.prompts.find? (fun p => decide (p.hash = hash)) with
  | some p => (db, p.id)
  | none =>
      let pid := freshPromptId db
      ({ db with prompts := db.prompts ++ [⟨pid, content, hash⟩] }, pid)

/-- queue-processor/db.rs `upsert_domain`: `INSERT INTO domains ... ON
CONFLICT (domain) DO UPDATE SET last_updated = NOW()`. -/
def upsert_domain (db : Db) (domain : String) (now : Nat) : Db :=
  if db.domains.any (fun d => decide (d.domain = domain)) then
    { db with
      domains := db.domains.map (fun d =>
        if d.domain = domain then { d with lastUpdated := now } else d) }
  else
    { db with domains := db.domains ++ [⟨domain, now⟩] }

/-- queue-processor/db.rs `insert_classification`: one new row with
`valid_on = Utc::now()` and `valid_until = valid_on + Duration::days(ttl_days)`. -/
def insert_classification (db : Db) (domain classificationType : String)
    (confidence : Rat) (model : String) (promptId : Nat) (ttlDays : Nat)
    (now : Nat) : Db :=
  { db with
    classifications := db.classifications ++
      [{ domain := domain
         classificationType := classificationType
         confidence := confidence
         validOn := now
         validUntil := now + ttlDays * secondsPerDay
         model := model
         promptId := promptId
         createdAt := now }] }

/-- queue-processor/db.rs `update_projections`: inside one transaction,
`ensure_prompt`, then `upsert_domain`, then `insert_classification`. -/
def update_projections (db : Db) (domain classificationType : String)
    (confidence : Rat) (model content hash : String) (ttlDays now : Nat) :
    Db :=
  let r := ensure_prompt db content hash
  let db2 := upsert_domain r.1 domain now
  insert_classification db2 domain classificationType confidence model r.2
    ttlDays now

/-- Insert a string into a strictly sorted list, dropping duplicates. -/
def insertSorted (x : String) : List String → List String
  | [] => [x]
  | y :: ys =>
      if x < y then x :: y :: ys
      else if x = y then y :: ys
      else y :: insertSorted x ys

/-- Deduplicating sort: models `SELECT DISTINCT ... ORDER BY domain ASC`. -/
def sortDedup (l : List String) : List String :=
  l.foldr insertSorted []

/-- blocklist-server/db.rs `get_blocked_domains`:
`SELECT DISTINCT d.domain FROM domains d INNER JOIN domain_classifications dc
ON d.domain = dc.domain WHERE dc.classification_type = $1 AND dc.valid_on <= $2
AND dc.valid_until > $2 ORDER BY d.domain ASC`. -/
def get_blocked_domains (db : Db) (classificationType : String) (t : Nat) :
    List String :=
  sortDedup
    ((db.domains.filter (fun d =>
        db.classifications.any (fun c =>
          decide (c.domain = d.domain) &&
          decide (c.classificationType = classificationType) &&
          decide (c.validOn ≤ t) &&
          decide (t < c.validUntil)))).map DomainRow.domain)

/-- log-processor/db.rs `should_queue_domain`: dispatch on the latest event.
No event: queue. `queued` or `classifying`: skip. `classified`: queue iff
`SELECT COUNT(*) FROM domain_classifications WHERE domain = $1 AND
valid_until > NOW()` is zero (note: the query filters on `valid_until` only,
with no `classification_type` and no `valid_on` condition). `error`: skip. -/
def should_queue_domain (db : Db) (domain : String) (now : Nat) : Bool :=
  match get_latest_event db domain with
  | none => true
  | some e =>
      match e.action with
      | Action.queued => false
      | Action.classifying => false
      | Action.classified =>
          let count :=
            (db.classifications.filter (fun c =>
              decide (c.domain = domain) && decide (now < c.validUntil))).length
          decide (count = 0)
      | Action.error => false

/-- log-processor/db.rs `insert_queued_event`: a `queued` event whose
`action_data` is the empty JSON object. -/
def insert_queued_event (db : Db) (domain : String) (now : Nat) : Db :=
  insert_event db domain Action.queued ActionData.emptyObject now

/-- The output columns of the `recent_events` CTE in queue-processor/db.rs
`count_consecutive_errors`: the CTE is `SELECT action::text FROM
domain_classification_events WHERE domain = $1 ORDER BY created_at DESC
LIMIT $2`, so it exposes exactly one column. -/
def recentEventsCteColumns : List String := ["action"]

/-- The columns of `recent_events` referenced by the outer query of
`count_consecutive_errors`: `action` in both WHERE clauses, and `rowid` in
the correlated comparison `re2.rowid <= recent_events.rowid`. -/
def countConsecutiveErrorsOuterRefs : List String := ["action", "rowid"]

/-- The rows of the `recent_events` CTE: the domain events ordered by
`created_at DESC`, truncated to the limit, projected to `action`. -/
def recentEventsRows (db : Db) (domain : String) (limit : Nat) : List Action :=
  (((eventsFor db domain).reverse).take limit).map Event.action

/-- Row-level reading of the outer query of `count_consecutive_errors`,
with the (nonexistent) `rowid` read as the position of a row in the CTE
output order: count the rows whose `action = error` such that no row at an
equal or earlier position has `action != error`. This value is never
produced (see `count_consecutive_errors`). -/
def countConsecutiveErrorsRows (db : Db) (domain : String) (limit : Nat) :
    Nat :=
  let rows := recentEventsRows db domain limit
  (List.range rows.length).countP (fun i =>
    decide (rows.getD i Action.error = Action.error) &&
    !((List.range rows.length).any (fun j =>
        decide (¬ rows.getD j Action.error = Action.error) && decide (j ≤ i))))

/-- Database-level errors surfaced to the queue processor. -/
inductive DbError where
  | sqlxError (msg : String)
  deriving DecidableEq, Repr

/-- queue-processor/db.rs `count_consecutive_errors`. PostgreSQL resolves
every column reference of a query against its FROM relations before any row
is read; `re2.rowid` does not resolve against the `recent_events` CTE
(PostgreSQL tables and CTEs have no `rowid` system column), so the whole
query is rejected and the function returns a database error regardless of
the stored data. -/
def count_consecutive_errors (db : Db) (domain : String) (limit : Nat) :
    Except DbError Nat :=
  if countConsecutiveErrorsOuterRefs.all
      (fun c => recentEventsCteColumns.contains c) then
    Except.ok (countConsecutiveErrorsRows db domain limit)
  else
    Except.error (DbError.sqlxError "column re2.rowid does not exist")

/-- A parsed HTML node, the output of the scraper crate
(`Html::parse_document` is the external parser; documents enter the model
already parsed). An element carries its tag name, its attribute list and its
children in document order. -/
inductive Node where
  | elem (tag : String) (attrs : List (String × String)) (children : List Node)
  | text (s : String)

/-- The CSS selector shapes used by `extract_metadata`: a bare tag name
(css "title", "html") or a tag with an exact attribute value
(css meta[name=description] and the three meta[property=og:...] forms). -/
inductive Sel where
  | tag (name : String)
  | tagAttr (name attrName attrValue : String)

/-- Whether an element node with the given tag and attributes matches a
selector. -/
def selMatches (s : Sel) (tag : String) (attrs : List (String × String)) :
    Bool :=
  match s with
  | Sel.tag name => decide (tag = name)
  | Sel.tagAttr name attrName attrValue =>
      decide (tag = name) &&
      attrs.any (fun p => decide (p.1 = attrName) && decide (p.2 = attrValue))

mutual

/-- scraper `document.select(&sel).next()`: the first node matching the
selector in document (preorder) order. -/
def selectFirst (s : Sel) : Node → Option Node
  | Node.text _ => none
  | Node.elem tag attrs children =>
      if selMatches s tag attrs then some (Node.elem tag attrs children)
      else selectFirstInList s children
  termination_by structural n => n

/-- Preorder search over a list of sibling nodes. -/
def selectFirstInList (s : Sel) : List Node → Option Node
  | [] => none
  | n :: ns =>
      match selectFirst s n with
      | some r => some r
      | none => selectFirstInList s ns
  termination_by structural l => l

end

mutual

/-- scraper `el.text().collect::<String>()`: the concatenated descendant
text of a node in document order. -/
def nodeText : Node → String
  | Node.text s => s
  | Node.elem _ _ children => nodesText children
  termination_by structural n => n

/-- Concatenated descendant text of a list of nodes. -/
def nodesText : List Node → String
  | [] => ""
  | n :: ns => nodeText n ++ nodesText ns
  termination_by structural l => l

end

/-- Whitespace as recognized by Rust `char::is_whitespace`, restricted to
the ASCII whitespace characters. -/
def isWhitespaceChar (c : Char) : Bool :=
  decide (c = ' ') || decide (c = '\t') || decide (c = '\n') || decide (c = '\r')

/-- Rust `str::trim`: drop whitespace from both ends. -/
def rustTrim (s : String) : String :=
  String.mk
    (((s.data.dropWhile isWhitespaceChar).reverse.dropWhile
        isWhitespaceChar).reverse)

/-- scraper `el.value().attr(attr)`: the value of an attribute, if present. -/
def nodeAttr (attr : String) : Node → Option String
  | Node.text _ => none
  | Node.elem _ attrs _ =>
      (attrs.find? (fun p => decide (p.1 = attr))).map Prod.snd

/-- classifier/web_classify.rs `text_from_css_selector`: first matching
element, its descendant text, trimmed, dropped when empty. -/
def text_from_css_selector (doc : Node) (s : Sel) : Option String :=
  match selectFirst s doc with
  | none => none
  | some el =>
      let r := rustTrim (nodeText el)
      if r = "" then none else some r

/-- classifier/web_classify.rs `attr_from_css_selector`: first matching
element, the named attribute, trimmed, dropped when empty. -/
def attr_from_css_selector (doc : Node) (s : Sel) (attr : String) :
    Option String :=
  match selectFirst s doc with
  | none => none
  | some el =>
      match nodeAttr attr el with
      | none => none
      | some v =>
          let r := rustTrim v
          if r = "" then none else some r

/-- classifier/web_classify.rs `SiteMetadata`. -/
structure SiteMetadata where
  domain : String
  title : Option String
  description : Option String
  og_title : Option String
  og_description : Option String
  og_site_name : Option String
  language : Option String
  http_status : Nat
  fetch_error : Option String
  deriving DecidableEq, Repr

/-- classifier/web_classify.rs `SiteMetadata::from_fetch_error`: minimal
metadata with `http_status: 0` and the error message. -/
def SiteMetadata.from_fetch_error (domain error : String) : SiteMetadata :=
  { domain := domain
    title := none
    description := none
    og_title := none
    og_description := none
    og_site_name := none
    language := none
    http_status := 0
    fetch_error := some error }

/-- classifier/web_classify.rs `extract_metadata`, selector for selector:
`title` by text; `meta[name=description]` by the content attribute;
`meta[property=og:title]`, `meta[property=og:description]` and
`meta[property=og:site_name]` by TEXT (`text_from_css_selector`, not the
content attribute); `language` as the TEXT of the `html` element (not its
lang attribute). The function always returns `Except.ok`. -/
def extract_metadata (domain : String) (doc : Node) (status : Nat) :
    Except String SiteMetadata :=
  Except.ok
    { domain := domain
      title := text_from_css_selector doc (Sel.tag "title")
      description :=
        attr_from_css_selector doc (Sel.tagAttr "meta" "name" "description")
          "content"
      og_title :=
        text_from_css_selector doc (Sel.tagAttr "meta" "property" "og:title")
      og_description :=
        text_from_css_selector doc
          (Sel.tagAttr "meta" "property" "og:description")
      og_site_name :=
        text_from_css_selector doc
          (Sel.tagAttr "meta" "property" "og:site_name")
      language := text_from_css_selector doc (Sel.tag "html")
      http_status := status
      fetch_error := none }

/-- Metadata extraction as the specification states it (section 4.2 step 3):
title from the title element text, description and all three og fields from
the content attribute of the corresponding meta element, language from the
lang attribute of the html element; trim whitespace, drop empties. Written
from the spec wording for comparison with `extract_metadata`. -/
def extractMetadataSpec (domain : String) (doc : Node) (status : Nat) :
    SiteMetadata :=
  { domain := domain
    title := text_from_css_selector doc (Sel.tag "title")
    description :=
      attr_from_css_selector doc (Sel.tagAttr "meta" "name" "description")
        "content"
    og_title :=
      attr_from_css_selector doc (Sel.tagAttr "meta" "property" "og:title")
        "content"
    og_description :=
      attr_from_css_selector doc
        (Sel.tagAttr "meta" "property" "og:description") "content"
    og_site_name :=
      attr_from_css_selector doc
        (Sel.tagAttr "meta" "property" "og:site_name") "content"
    language := attr_from_css_selector doc (Sel.tag "html") "lang"
    http_status := status
    fetch_error := none }

/-- Truncation to a 32-bit word. -/
def w32 (n : Nat) : Nat := n % 4294967296

/-- 32-bit right rotation. -/
def rotr (x n : Nat) : Nat := w32 ((x >>> n) ||| (x <<< (32 - n)))

/-- SHA-256 Ch function. -/
def shaCh (x y z : Nat) : Nat := (x &&& y) ^^^ ((x ^^^ 4294967295) &&& z)

/-- SHA-256 Maj function. -/
def shaMaj (x y z : Nat) : Nat := (x &&& y) ^^^ (x &&& z) ^^^ (y &&& z)

/-- SHA-256 big Sigma 0. -/
def bigSigma0 (x : Nat) : Nat := (rotr x 2) ^^^ (rotr x 13) ^^^ (rotr x 22)

/-- SHA-256 big Sigma 1. -/
def bigSigma1 (x : Nat) : Nat := (rotr x 6) ^^^ (rotr x 11) ^^^ (rotr x 25)

/-- SHA-256 small sigma 0. -/
def smallSigma0 (x : Nat) : Nat := (rotr x 7) ^^^ (rotr x 18) ^^^ (x >>> 3)

/-- SHA-256 small sigma 1. -/
def smallSigma1 (x : Nat) : Nat := (rotr x 17) ^^^ (rotr x 19) ^^^ (x >>> 10)

/-- The 64 SHA-256 round constants, as decimal word values. -/
def shaK : List Nat :=
  [1116352408, 1899447441, 3049323471, 3921009573,
   961987163, 1508970993, 2453635748, 2870763221,
   3624381080, 310598401, 607225278, 1426881987,
   1925078388, 2162078206, 2614888103, 3248222580,
   3835390401, 4022224774, 264347078, 604807628,
   770255983, 1249150122, 1555081692, 1996064986,
   2554220882, 2821834349, 2952996808, 3210313671,
   3336571891, 3584528711, 113926993, 338241895,
   666307205, 773529912, 1294757372, 1396182291,
   1695183700, 1986661051, 2177026350, 2456956037,
   2730485921, 2820302411, 3259730800, 3345764771,
   3516065817, 3600352804, 4094571909, 275423344,
   430227734, 506948616, 659060556, 883997877,
   958139571, 1322822218, 1537002063, 1747873779,
   1955562222, 2024104815, 2227730452, 2361852424,
   2428436474, 2756734187, 3204031479, 3329325298]

/-- The SHA-256 working state, eight 32-bit words. -/
structure Hash8 where
  a : Nat
  b : Nat
  c : Nat
  d : Nat
  e : Nat
  f : Nat
  g : Nat
  h : Nat
  deriving DecidableEq, Repr

/-- The SHA-256 initial hash value, as decimal word values. -/
def shaInit : Hash8 :=
  ⟨1779033703, 3144134277, 1013904242, 2773480762,
   1359893119, 2600822924, 528734635, 1541459225⟩

/-- One SHA-256 compression round. -/
def shaRound (s : Hash8) (ki wi : Nat) : Hash8 :=
  let t1 := w32 (s.h + bigSigma1 s.e + shaCh s.e s.f s.g + ki + wi)
  let t2 := w32 (bigSigma0 s.a + shaMaj s.a s.b s.c)
  ⟨w32 (t1 + t2), s.a, s.b, s.c, w32 (s.d + t1), s.e, s.f, s.g⟩

/-- Group a byte list into big-endian 32-bit words. -/
def toWords : List Nat → List Nat
  | b0 :: b1 :: b2 :: b3 :: rest =>
      ((b0 <<< 24) ||| (b1 <<< 16) ||| (b2 <<< 8) ||| b3) :: toWords rest
  | _ => []

/-- Extend the 16-word schedule by n further words. -/
def extendSchedule : Nat → List Nat → List Nat
  | 0, acc => acc
  | n + 1, acc =>
      let k := acc.length
      let next := w32 (smallSigma1 (acc.getD (k - 2) 0) + acc.getD (k - 7) 0 +
        smallSigma0 (acc.getD (k - 15) 0) + acc.getD (k - 16) 0)
      extendSchedule n (acc ++ [next])

/-- Compress one 64-byte block into the running hash. -/
def compressBlock (h0 : Hash8) (block : List Nat) : Hash8 :=
  let ws := extendSchedule 48 (toWords block)
  let s := (shaK.zip ws).foldl (fun s kw => shaRound s kw.1 kw.2) h0
  ⟨w32 (h0.a + s.a), w32 (h0.b + s.b), w32 (h0.c + s.c), w32 (h0.d + s.d),
   w32 (h0.e + s.e), w32 (h0.f + s.f), w32 (h0.g + s.g), w32 (h0.h + s.h)⟩

/-- Big-endian byte expansion, most significant first. -/
def beBytes (width n : Nat) : List Nat :=
  (List.range width).map (fun i => (n >>> (8 * (width - 1 - i))) % 256)

/-- SHA-256 padding: append 0x80, zero bytes to 56 mod 64, then the bit
length as eight big-endian bytes. -/
def padMessage (msg : List Nat) : List Nat :=
  let z := (120 - ((msg.length + 1) % 64)) % 64
  msg ++ [0x80] ++ List.replicate z 0 ++ beBytes 8 (8 * msg.length)

/-- Split a list into chunks of 64, with explicit fuel for termination. -/
def chunk64 : Nat → List Nat → List (List Nat)
  | 0, _ => []
  | _, [] => []
  | fuel + 1, l => l.take 64 :: chunk64 fuel (l.drop 64)

/-- The SHA-256 digest of a byte list, as 32 bytes. -/
def sha256Bytes (msg : List Nat) : List Nat :=
  let padded := padMessage msg
  let final := (chunk64 padded.length padded).foldl compressBlock shaInit
  beBytes 4 final.a ++ beBytes 4 final.b ++ beBytes 4 final.c ++
  beBytes 4 final.d ++ beBytes 4 final.e ++ beBytes 4 final.f ++
  beBytes 4 final.g ++ beBytes 4 final.h

/-- The lowercase hex character of a value below 16: digits start at code
point 48, letters a to f at 97. -/
def hexChar (n : Nat) : Char :=
  if n < 10 then Char.ofNat (48 + n) else Char.ofNat (87 + n)

/-- Two lowercase hex characters for one byte. -/
def hexByte (b : Nat) : List Char :=
  [hexChar (b / 16 % 16), hexChar (b % 16)]

/-- Lowercase hex encoding of a byte list. -/
def hexEncode (bytes : List Nat) : String :=
  String.mk (bytes.flatMap hexByte)

/-- UTF-8 encoding of one character. -/
def utf8Char (c : Char) : List Nat :=
  let n := c.toNat
  if n < 0x80 then [n]
  else if n < 0x800 then
    [0xc0 ||| (n >>> 6), 0x80 ||| (n &&& 0x3f)]
  else if n < 0x10000 then
    [0xe0 ||| (n >>> 12), 0x80 ||| ((n >>> 6) &&& 0x3f), 0x80 ||| (n &&& 0x3f)]
  else
    [0xf0 ||| (n >>> 18), 0x80 ||| ((n >>> 12) &&& 0x3f),
     0x80 ||| ((n >>> 6) &&& 0x3f), 0x80 ||| (n &&& 0x3f)]

/-- UTF-8 bytes of a string (`content.as_bytes()`). -/
def utf8Bytes (s : String) : List Nat :=
  s.data.flatMap utf8Char

/-- classifier/lib.rs `compute_prompt_hash`: the string `sha256:` followed by
the lowercase hex SHA-256 digest of the content bytes. The queue processor
uses the same function through the classifier library crate. -/
def compute_prompt_hash (content : String) : String :=
  "sha256:" ++ hexEncode (sha256Bytes (utf8Bytes content))

/-- classifier/web_classify.rs `fetch_domain`: `let max_attempts = 3`. -/
def maxAttempts : Nat := 3

/-- The backoff delay slept before retry attempt `attempt` (attempt > 0):
`500 * (1 << (attempt - 1))` milliseconds. -/
def backoffDelayMs (attempt : Nat) : Nat := 500 * (1 <<< (attempt - 1))

/-- The retry loop of classifier/web_classify.rs `fetch_domain`. The network
is external: `outcome i` is the result of HTTP attempt `i` (the fetched body
and status on success, the reqwest error text on failure). The function
returns the list of backoff delays actually slept, in order, together with
the first success or, after the attempts are exhausted, the last error
(`last_error.unwrap()`). The fuel argument starts at `maxAttempts`. -/
def fetchGo (outcome : Nat → Except String (String × Nat)) :
    Nat → Nat → List Nat → Option String →
    List Nat × Except String (String × Nat)
  | 0, _, delays, lastError =>
      (delays, Except.error (lastError.getD "no attempt made"))
  | fuel + 1, attempt, delays, _ =>
      let delays :=
        if attempt > 0 then delays ++ [backoffDelayMs attempt] else delays
      match outcome attempt with
      | Except.ok r => (delays, Except.ok r)
      | Except.error e => fetchGo outcome fuel (attempt + 1) delays (some e)

/-- classifier/web_classify.rs `fetch_domain`, reduced to its retry
behaviour: delays slept and final outcome. -/
def fetch_domain_run (outcome : Nat → Except String (String × Nat)) :
    List Nat × Except String (String × Nat) :=
  fetchGo outcome maxAttempts 0 [] none

/-- classifier/output.rs `Classification`: the LLM verdict. -/
structure Classification where
  is_matching_site : Bool
  confidence : Rat
  deriving DecidableEq, Repr

/-- classifier/output.rs `ClassificationMetadata`. -/
structure ClassificationMetadata where
  http_status : Nat
  model : String
  prompt_hash : String
  deriving DecidableEq, Repr

/-- classifier/output.rs `ClassificationOutput`: the success JSON document. -/
structure ClassificationOutput where
  domain : String
  result : String
  classification : Classification
  metadata : ClassificationMetadata
  deriving DecidableEq, Repr

/-- classifier/output.rs `ErrorInfo` (the error type name and message). -/
structure ErrorInfo where
  error_type : String
  message : String
  deriving DecidableEq, Repr

/-- classifier/output.rs `PartialMetadata`. -/
structure PartialMetadata where
  model : String
  prompt_hash : String
  deriving DecidableEq, Repr

/-- classifier/output.rs `ErrorOutput`: the error JSON document. -/
structure ErrorOutput where
  domain : String
  result : String
  error : ErrorInfo
  metadata : Option PartialMetadata
  deriving DecidableEq, Repr

/-- classifier/main.rs `run_classification`. External effects are inputs:
`promptRead` is the result of reading the prompt template file,
`fetchResult` is the final outcome of `fetch_domain` (the fetched document
arrives parsed), and `llm` is `classify_with_llm` on the extracted metadata
and the template (its Ollama call is external). The fetch is best effort:
on fetch failure, and on metadata extraction failure, the run continues
with `SiteMetadata::from_fetch_error`; an LLM failure produces the error
document; otherwise the success document carries the metadata http status. -/
def run_classification (domain ollamaModel : String)
    (promptRead : Except String String)
    (fetchResult : Except String (Node × Nat))
    (llm : SiteMetadata → String → Except ErrorInfo Classification) :
    Except ErrorOutput ClassificationOutput :=
  match promptRead with
  | Except.error e =>
      Except.error
        { domain := domain
          result := "error"
          error := { error_type := "PromptFileReadError", message := e }
          metadata := none }
  | Except.ok promptTemplate =>
      let promptHash := compute_prompt_hash promptTemplate
      let metadata :=
        match fetchResult with
        | Except.ok dh =>
            match extract_metadata domain dh.1 dh.2 with
            | Except.ok m => m
            | Except.error e =>
                SiteMetadata.from_fetch_error domain
                  ("Metadata extraction failed: " ++ e)
        | Except.error e => SiteMetadata.from_fetch_error domain e
      match llm metadata promptTemplate with
      | Except.error e =>
          Except.error
            { domain := domain
              result := "error"
              error := e
              metadata :=
                some { model := ollamaModel, prompt_hash := promptHash } }
      | Except.ok classification =>
          Except.ok
            { domain := domain
              result := "classified"
              classification := classification
              metadata :=
                { http_status := metadata.http_status
                  model := ollamaModel
                  prompt_hash := promptHash } }

/-- The parse step between the fetch and `extract_metadata`
(`Html::parse_document`, the external scraper parser, abstracted as
`parse`): a fetch success has its body parsed, a fetch failure passes
through. -/
def fetchToDocument (parse : String → Node) :
    Except String (String × Nat) → Except String (Node × Nat)
  | Except.ok r => Except.ok (parse r.1, r.2)
  | Except.error e => Except.error e

/-- queue-processor/main.rs `ProcessorError`, restricted to the variants the
message handling can produce at runtime. -/
inductive ProcessorError where
  | classifierError (msg : String)
  | databaseError (e : DbError)
  | ioError (msg : String)
  deriving DecidableEq, Repr

/-- The thiserror Display strings of `ProcessorError` (`e.to_string()`). -/
def ProcessorError.display : ProcessorError → String
  | ProcessorError.classifierError msg => "Classifier execution error: " ++ msg
  | ProcessorError.databaseError (DbError.sqlxError msg) =>
      "Database error: " ++ msg
  | ProcessorError.ioError msg => "IO error: " ++ msg

/-- Substring containment on strings. -/
def containsSubstr (s pat : String) : Bool :=
  decide (pat.data <:+: s.data)

/-- queue-processor/main.rs `process_domain`, permanence test: for a
`ClassifierError` message, whether it contains one of the four permanent
markers; every other error variant is transient. -/
def is_permanent_error : ProcessorError → Bool
  | ProcessorError.classifierError msg =>
      containsSubstr msg "dns_resolution_failed" ||
      containsSubstr msg "invalid_domain" ||
      containsSubstr msg "http_fetch_failed: 404" ||
      containsSubstr msg "http_fetch_failed: 403"
  | ProcessorError.databaseError _ => false
  | ProcessorError.ioError _ => false

/-- The CLI parameters of the queue processor that `process_domain` reads. -/
structure Args where
  classificationType : String
  ollamaModel : String
  minConfidence : Rat
  ttlDays : Nat
  deriving DecidableEq, Repr

/-- queue-processor/main.rs `process_domain`. The classifier subprocess is
external: `classifierResult` is what `run_classifier` returned (the parsed
success output, or the error built from the subprocess stdout). The function
always first appends a `classifying` event. On success it appends the
`classified` event and, exactly when `is_matching_site` holds and the
confidence reaches `min_confidence`, runs `update_projections`. On failure
it appends an `error` event; a permanent error returns `Ok`; otherwise it
asks `count_consecutive_errors` (propagating its database error with `?`),
returns `Ok` at three or more, and otherwise re-raises the error. Returns
the new store state and the `Result` seen by `main`. -/
def process_domain (db : Db) (domain : String) (args : Args)
    (promptTemplate : String)
    (classifierResult : Except ProcessorError ClassificationOutput)
    (now : Nat) : Db × Except ProcessorError Unit :=
  let db :=
    insert_event db domain Action.classifying
      (ActionData.classifyingData args.ollamaModel
        (compute_prompt_hash promptTemplate)) now
  match classifierResult with
  | Except.ok output =>
      let db :=
        insert_event db domain Action.classified
          (ActionData.classifiedData output.classification.is_matching_site
            output.classification.confidence args.classificationType
            output.metadata.http_status) now
      if output.classification.is_matching_site = true ∧
          args.minConfidence ≤ output.classification.confidence then
        (update_projections db domain args.classificationType
            output.classification.confidence args.ollamaModel promptTemplate
            output.metadata.prompt_hash args.ttlDays now,
          Except.ok ())
      else
        (db, Except.ok ())
  | Except.error e =>
      let db :=
        insert_event db domain Action.error
          (ActionData.errorData e.display) now
      if is_permanent_error e then
        (db, Except.ok ())
      else
        match count_consecutive_errors db domain 10 with
        | Except.error dbErr => (db, Except.error (ProcessorError.databaseError dbErr))
        | Except.ok n =>
            if 3 ≤ n then (db, Except.ok ()) else (db, Except.error e)

/-- The acknowledgment decision of the message loop in
queue-processor/main.rs `main`: for a deserializable message, `Ok` from
`process_domain` leads to `ack`, an error to a negative acknowledgment. -/
inductive AckDecision where
  | ack
  | nak
  deriving DecidableEq, Repr

/-- queue-processor/main.rs `main`, ack discipline on the `process_domain`
result. -/
def ackOfResult (r : Except ProcessorError Unit) : AckDecision :=
  match r with
  | Except.ok _ => AckDecision.ack
  | Except.error _ => AckDecision.nak

/-- queue-processor/db.rs: the content a later `SELECT content FROM prompts
WHERE hash = $1` style lookup finds (spec section 8, round-trip law). -/
def select_prompt_by_hash (db : Db) (hash : String) : Option String :=
  (db.prompts.find? (fun p => decide (p.hash = hash))).map PromptRow.content

/-- A concrete parsed document for evaluating metadata extraction: an html
element carrying a lang attribute, a title element, and meta elements whose
values live in their content attributes (meta elements are void and have no
text). -/
def sampleDoc : Node :=
  Node.elem "html" [("lang", "en")]
    [Node.elem "head" []
      [Node.elem "title" [] [Node.text "Awesome Game Store"],
       Node.elem "meta"
         [("name", "description"),
          ("content", "The ultimate destination for PC gaming")] [],
       Node.elem "meta"
         [("property", "og:title"), ("content", "Awesome Game Store OG")] [],
       Node.elem "meta"
         [("property", "og:description"),
          ("content", "Digital distribution platform")] [],
       Node.elem "meta" [("property", "og:site_name"), ("content", "AGS")] []],
     Node.elem "body" [] [Node.text "Welcome"]]

/-!
Theorems. The helper lemmas come first; then, for each claim C1 to C10,
one main theorem with its witness or counterexample as required.
-/

/-- Membership in `insertSorted`. -/
theorem mem_insertSorted (x a : String) (l : List String) :
    a ∈ insertSorted x l ↔ a = x ∨ a ∈ l := by
  induction l with
  | nil => simp [insertSorted]
  | cons y ys ih =>
      have hu : insertSorted x (y :: ys) =
          if x < y then x :: y :: ys
          else if x = y then y :: ys else y :: insertSorted x ys := rfl
      rw [hu]
      split_ifs with h1 h2
      · simp
      · subst h2
        simp only [List.mem_cons]
        tauto
      · simp only [List.mem_cons, ih]
        tauto

/-- `insertSorted` preserves strict sortedness. -/
theorem pairwise_insertSorted (x : String) (l : List String)
    (h : l.Pairwise (fun a b => a < b)) :
    (insertSorted x l).Pairwise (fun a b => a < b) := by
  induction l with
  | nil => simp [insertSorted]
  | cons y ys ih =>
      rcases List.pairwise_cons.mp h with ⟨hy, hys⟩
      have hu : insertSorted x (y :: ys) =
          if x < y then x :: y :: ys
          else if x = y then y :: ys else y :: insertSorted x ys := rfl
      rw [hu]
      split_ifs with h1 h2
      · refine List.pairwise_cons.mpr ⟨?_, h⟩
        intro b hb
        rcases List.mem_cons.mp hb with rfl | hb2
        · exact h1
        · exact lt_trans h1 (hy b hb2)
      · exact h
      · have hyx : y < x :=
          lt_of_le_of_ne (not_lt.mp h1) (fun hh => h2 hh.symm)
        refine List.pairwise_cons.mpr ⟨?_, ih hys⟩
        intro b hb
        rcases (mem_insertSorted x b ys).mp hb with rfl | hb2
        · exact hyx
        · exact hy b hb2

/-- Membership in `sortDedup`. -/
theorem mem_sortDedup (a : String) (l : List String) :
    a ∈ sortDedup l ↔ a ∈ l := by
  induction l with
  | nil => simp [sortDedup]
  | cons y ys ih =>
      show a ∈ insertSorted y (sortDedup ys) ↔ _
      rw [mem_insertSorted]
      simp [ih]

/-- `sortDedup` yields a strictly sorted (hence duplicate-free) list. -/
theorem pairwise_sortDedup (l : List String) :
    (sortDedup l).Pairwise (fun a b => a < b) := by
  induction l with
  | nil => simp [sortDedup]
  | cons y ys ih => exact pairwise_insertSorted y (sortDedup ys) ih

/-- `insert_event` leaves the projection tables unchanged. -/
theorem insert_event_projections (db : Db) (d : String) (a : Action)
    (x : ActionData) (now : Nat) :
    (insert_event db d a x now).classifications = db.classifications ∧
    (insert_event db d a x now).domains = db.domains ∧
    (insert_event db d a x now).prompts = db.prompts :=
  ⟨rfl, rfl, rfl⟩

/-- `ensure_prompt` touches only the prompts table. -/
theorem ensure_prompt_other_tables (db : Db) (c h : String) :
    (ensure_prompt db c h).1.classifications = db.classifications ∧
    (ensure_prompt db c h).1.domains = db.domains ∧
    (ensure_prompt db c h).1.events = db.events := by
  unfold ensure_prompt
  cases db.prompts.find? (fun p => decide (p.hash = h)) <;>
    exact ⟨rfl, rfl, rfl⟩

/-- `upsert_domain` touches only the domains table. -/
theorem upsert_domain_other_tables (db : Db) (d : String) (now : Nat) :
    (upsert_domain db d now).classifications = db.classifications ∧
    (upsert_domain db d now).prompts = db.prompts ∧
    (upsert_domain db d now).events = db.events := by
  unfold upsert_domain
  split <;> exact ⟨rfl, rfl, rfl⟩

/-- `update_projections` appends exactly one classification row, with the
validity window `[now, now + ttlDays days)`. -/
theorem update_projections_classifications (db : Db)
    (d ct conf m content hash ttl now) :
    (update_projections db d ct conf m content hash ttl now).classifications =
      db.classifications ++
        [{ domain := d
           classificationType := ct
           confidence := conf
           validOn := now
           validUntil := now + ttl * secondsPerDay
           model := m
           promptId := (ensure_prompt db content hash).2
           createdAt := now }] := by
  unfold update_projections insert_classification
  have h1 := ensure_prompt_other_tables db content hash
  have h2 := upsert_domain_other_tables (ensure_prompt db content hash).1 d now
  simp [h2.1, h1.1]

/-- `update_projections` does not write events. -/
theorem update_projections_events (db : Db)
    (d ct conf m content hash ttl now) :
    (update_projections db d ct conf m content hash ttl now).events =
      db.events := by
  unfold update_projections insert_classification
  have h1 := ensure_prompt_other_tables db content hash
  have h2 := upsert_domain_other_tables (ensure_prompt db content hash).1 d now
  simp [h2.2.2, h1.2.2]

/-- C2. For every classification type and query time t, over any store state
in which every classification row has a backing domains row (the inner join
of `get_blocked_domains` requires it; `update_projections`, the only writer,
upserts the domains row in the same transaction), the blocklist query
returns a strictly sorted, duplicate-free list containing exactly the
domains having some classification of that type whose half-open validity
interval covers t: `valid_on ≤ t < valid_until`, so `valid_on = t` is
included and `valid_until = t` is excluded. -/
theorem blocked_domains_exactly_valid_sorted (db : Db)
    (classificationType : String) (t : Nat)
    (hdom : ∀ c ∈ db.classifications, ∃ d ∈ db.domains, d.domain = c.domain) :
    (get_blocked_domains db classificationType t).Pairwise
      (fun a b => a < b) ∧
    ∀ x, x ∈ get_blocked_domains db classificationType t ↔
      ∃ c ∈ db.classifications, c.domain = x ∧
        c.classificationType = classificationType ∧
        c.validOn ≤ t ∧ t < c.validUntil := by
  constructor
  · exact pairwise_sortDedup _
  · intro x
    rw [get_blocked_domains, mem_sortDedup, List.mem_map]
    constructor
    · rintro ⟨d, hd, rfl⟩
      rcases List.mem_filter.mp hd with ⟨_, hp⟩
      rcases List.any_eq_true.mp hp with ⟨c, hc, hcp⟩
      simp only [Bool.and_eq_true, decide_eq_true_eq] at hcp
      exact ⟨c, hc, hcp.1.1.1, hcp.1.1.2, hcp.1.2, hcp.2⟩
    · rintro ⟨c, hc, hcd, hct, hv1, hv2⟩
      rcases hdom c hc with ⟨d, hdmem, hdc⟩
      refine ⟨d, List.mem_filter.mpr ⟨hdmem, ?_⟩, by rw [hdc, hcd]⟩
      refine List.any_eq_true.mpr ⟨c, hc, ?_⟩
      simp only [Bool.and_eq_true, decide_eq_true_eq]
      exact ⟨⟨⟨by rw [hdc], hct⟩, hv1⟩, hv2⟩

/-- Witness for C2 at a concrete state: one gaming classification covering
t = 100 (its `valid_on` equals t, the included endpoint), one whose
`valid_until` equals t (excluded), and a news classification. -/
theorem blocked_domains_exactly_valid_sorted_witness :
    (∀ c ∈ ([{ domain := "a.example", classificationType := "gaming",
               confidence := 9/10, validOn := 100, validUntil := 964100,
               model := "m", promptId := 1, createdAt := 100 },
             { domain := "b.example", classificationType := "gaming",
               confidence := 9/10, validOn := 10, validUntil := 100,
               model := "m", promptId := 1, createdAt := 10 },
             { domain := "c.example", classificationType := "news",
               confidence := 9/10, validOn := 10, validUntil := 964100,
               model := "m", promptId := 1, createdAt := 10 }] :
        List ClassificationRow),
      ∃ d ∈ ([⟨"a.example", 100⟩, ⟨"b.example", 10⟩, ⟨"c.example", 10⟩] :
          List DomainRow), d.domain = c.domain) ∧
    ((get_blocked_domains
        ⟨[], [⟨"a.example", 100⟩, ⟨"b.example", 10⟩, ⟨"c.example", 10⟩],
          [{ domain := "a.example", classificationType := "gaming",
             confidence := 9/10, validOn := 100, validUntil := 964100,
             model := "m", promptId := 1, createdAt := 100 },
           { domain := "b.example", classificationType := "gaming",
             confidence := 9/10, validOn := 10, validUntil := 100,
             model := "m", promptId := 1, createdAt := 10 },
           { domain := "c.example", classificationType := "news",
             confidence := 9/10, validOn := 10, validUntil := 964100,
             model := "m", promptId := 1, createdAt := 10 }], []⟩
        "gaming" 100).Pairwise (fun a b => a < b) ∧
      ∀ x, x ∈ get_blocked_domains
          ⟨[], [⟨"a.example", 100⟩, ⟨"b.example", 10⟩, ⟨"c.example", 10⟩],
            [{ domain := "a.example", classificationType := "gaming",
               confidence := 9/10, validOn := 100, validUntil := 964100,
               model := "m", promptId := 1, createdAt := 100 },
             { domain := "b.example", classificationType := "gaming",
               confidence := 9/10, validOn := 10, validUntil := 100,
               model := "m", promptId := 1, createdAt := 10 },
             { domain := "c.example", classificationType := "news",
               confidence := 9/10, validOn := 10, validUntil := 964100,
               model := "m", promptId := 1, createdAt := 10 }], []⟩
          "gaming" 100 ↔
        ∃ c ∈ ([{ domain := "a.example", classificationType := "gaming",
                  confidence := 9/10, validOn := 100, validUntil := 964100,
                  model := "m", promptId := 1, createdAt := 100 },
                { domain := "b.example", classificationType := "gaming",
                  confidence := 9/10, validOn := 10, validUntil := 100,
                  model := "m", promptId := 1, createdAt := 10 },
                { domain := "c.example", classificationType := "news",
                  confidence := 9/10, validOn := 10, validUntil := 964100,
                  model := "m", promptId := 1, createdAt := 10 }] :
            List ClassificationRow),
          c.domain = x ∧ c.classificationType = "gaming" ∧
          c.validOn ≤ 100 ∧ 100 < c.validUntil) :=
  ⟨by decide,
   blocked_domains_exactly_valid_sorted
     ⟨[], [⟨"a.example", 100⟩, ⟨"b.example", 10⟩, ⟨"c.example", 10⟩],
       [{ domain := "a.example", classificationType := "gaming",
          confidence := 9/10, validOn := 100, validUntil := 964100,
          model := "m", promptId := 1, createdAt := 100 },
        { domain := "b.example", classificationType := "gaming",
          confidence := 9/10, validOn := 10, validUntil := 100,
          model := "m", promptId := 1, createdAt := 10 },
        { domain := "c.example", classificationType := "news",
          confidence := 9/10, validOn := 10, validUntil := 964100,
          model := "m", promptId := 1, createdAt := 10 }], []⟩
     "gaming" 100 (by decide)⟩

/-- C6. For every store state, domain and time t, `should_queue_domain`
returns false exactly when the latest event is `queued`, `classifying` or
`error`, or is `classified` while some unexpired classification row for the
domain exists (`t < valid_until`; expired means `valid_until ≤ t`). In
particular it returns true when there is no event at all, and when the
latest event is `classified` but every classification row of the domain has
expired. -/
theorem should_queue_false_iff (db : Db) (domain : String) (t : Nat) :
    should_queue_domain db domain t = false ↔
      ∃ e, get_latest_event db domain = some e ∧
        (e.action = Action.queued ∨ e.action = Action.classifying ∨
         e.action = Action.error ∨
         (e.action = Action.classified ∧
          ∃ c ∈ db.classifications, c.domain = domain ∧ t < c.validUntil)) := by
  cases hle : get_latest_event db domain with
  | none =>
      simp only [should_queue_domain, hle]
      simp
  | some e =>
      cases ha : e.action with
      | queued =>
          simp only [should_queue_domain, hle, ha]
          simp [ha]
      | classifying =>
          simp only [should_queue_domain, hle, ha]
          simp [ha]
      | error =>
          simp only [should_queue_domain, hle, ha]
          simp [ha]
      | classified =>
          simp only [should_queue_domain, hle, ha]
          rw [decide_eq_false_iff_not]
          constructor
          · intro hne
            have hne2 : db.classifications.filter (fun c =>
                decide (c.domain = domain) && decide (t < c.validUntil)) ≠ [] :=
              fun hnil => hne (by rw [hnil]; rfl)
            rcases List.exists_mem_of_ne_nil _ hne2 with ⟨c, hcmem⟩
            rcases List.mem_filter.mp hcmem with ⟨hcs, hcp⟩
            simp only [Bool.and_eq_true, decide_eq_true_eq] at hcp
            exact ⟨e, rfl, Or.inr (Or.inr (Or.inr
              ⟨ha, c, hcs, hcp.1, hcp.2⟩))⟩
          · rintro ⟨e2, he2, hcase⟩
            have he3 := Option.some.inj he2
            subst he3
            rcases hcase with h | h | h | ⟨_, c, hcs, hcd, hcv⟩
            · rw [ha] at h; cases h
            · rw [ha] at h; cases h
            · rw [ha] at h; cases h
            · intro hlen0
              have hnil := List.length_eq_zero.mp hlen0
              have hmem : c ∈ db.classifications.filter (fun c =>
                  decide (c.domain = domain) && decide (t < c.validUntil)) :=
                List.mem_filter.mpr ⟨hcs, by
                  simp only [Bool.and_eq_true, decide_eq_true_eq]
                  exact ⟨hcd, hcv⟩⟩
              rw [hnil] at hmem
              cases hmem

/-- C5. The claim states that `consecutive_error_count` returns N exactly
when the N most recent events are errors and the next most recent one is
absent or not an error; the implemented query never returns any count: its
correlated subquery references `re2.rowid`, which is not a column of the
`recent_events` CTE, so PostgreSQL rejects the query and the function fails
with a database error for every store state, every domain and every limit. -/
theorem count_consecutive_errors_always_fails (db : Db) (domain : String)
    (limit : Nat) :
    count_consecutive_errors db domain limit =
      Except.error (DbError.sqlxError "column re2.rowid does not exist") :=
  rfl

/-- C4. Failure handling at a concrete input that the claim says must be
acknowledged: the domain has three consecutive `error` events (the reading
of the claim counts 3), and the new failure message
(an Ollama timeout) contains none of the four permanent substrings. The
claim requires an ack (circuit open at count 3); the code instead
propagates the failure of `count_consecutive_errors`, so `main` negatively
acknowledges and the broker redelivers. -/
theorem transient_error_circuit_open_is_nakked :
    countConsecutiveErrorsRows
      ⟨[], [], [],
        [⟨"flaky.example", Action.error, ActionData.errorData "e1", 1⟩,
         ⟨"flaky.example", Action.error, ActionData.errorData "e2", 2⟩,
         ⟨"flaky.example", Action.error, ActionData.errorData "e3", 3⟩]⟩
      "flaky.example" 10 = 3 ∧
    is_permanent_error (ProcessorError.classifierError
      "OllamaApiTimeoutError: operation timed out") = false ∧
    (process_domain
        ⟨[], [], [],
          [⟨"flaky.example", Action.error, ActionData.errorData "e1", 1⟩,
           ⟨"flaky.example", Action.error, ActionData.errorData "e2", 2⟩,
           ⟨"flaky.example", Action.error, ActionData.errorData "e3", 3⟩]⟩
        "flaky.example" ⟨"gaming", "llama2", 4/5, 10⟩ "tpl"
        (Except.error (ProcessorError.classifierError
          "OllamaApiTimeoutError: operation timed out")) 9).2 =
      Except.error (ProcessorError.databaseError
        (DbError.sqlxError "column re2.rowid does not exist")) ∧
    ackOfResult (process_domain
        ⟨[], [], [],
          [⟨"flaky.example", Action.error, ActionData.errorData "e1", 1⟩,
           ⟨"flaky.example", Action.error, ActionData.errorData "e2", 2⟩,
           ⟨"flaky.example", Action.error, ActionData.errorData "e3", 3⟩]⟩
        "flaky.example" ⟨"gaming", "llama2", 4/5, 10⟩ "tpl"
        (Except.error (ProcessorError.classifierError
          "OllamaApiTimeoutError: operation timed out")) 9).2 =
      AckDecision.nak := by
  refine ⟨by decide, by decide, ?_, ?_⟩ <;> rfl

/-- C3. Skip behaviour at a concrete input: the domain has latest event
`error`, for which the claim requires the queue processor to skip (no
classifier run, no new `classifying` event). The code instead always
appends a `classifying` event and consumes the classifier run; processing
a redelivered message for the domain grows the event log. -/
theorem no_skip_on_latest_error_event :
    get_latest_event
        ⟨[], [], [],
          [⟨"stuck.example", Action.error, ActionData.errorData "boom", 5⟩]⟩
        "stuck.example" =
      some ⟨"stuck.example", Action.error, ActionData.errorData "boom", 5⟩ ∧
    ((process_domain
        ⟨[], [], [],
          [⟨"stuck.example", Action.error, ActionData.errorData "boom", 5⟩]⟩
        "stuck.example" ⟨"gaming", "llama2", 4/5, 10⟩ "tpl"
        (Except.error (ProcessorError.classifierError
          "OllamaApiConnectionError: connect failure")) 9).1.events.map
      Event.action) =
      [Action.error, Action.classifying, Action.error] := by
  refine ⟨by decide, ?_⟩
  rfl

/-- The success branch of `process_domain`, written out. -/
theorem process_domain_ok_eq (db : Db) (domain : String) (args : Args)
    (tmpl : String) (output : ClassificationOutput) (now : Nat) :
    process_domain db domain args tmpl (Except.ok output) now =
      (let db1 := insert_event db domain Action.classifying
        (ActionData.classifyingData args.ollamaModel
          (compute_prompt_hash tmpl)) now
       let db2 := insert_event db1 domain Action.classified
        (ActionData.classifiedData output.classification.is_matching_site
          output.classification.confidence args.classificationType
          output.metadata.http_status) now
       if output.classification.is_matching_site = true ∧
           args.minConfidence ≤ output.classification.confidence then
         (update_projections db2 domain args.classificationType
            output.classification.confidence args.ollamaModel tmpl
            output.metadata.prompt_hash args.ttlDays now,
          Except.ok ())
       else (db2, Except.ok ())) := rfl

/-- C1. For every successfully classified domain, the event log always
gains the `classifying` and `classified` events; a classification row
(with `valid_on = now` and `valid_until = now + ttl_days days`) is
committed exactly when the classifier output has `is_matching_site` and
confidence at least `min_confidence`; and when that condition fails, the
projection tables (classifications, domains, prompts) are untouched, the
`classified` event alone recording the outcome. -/
theorem classification_committed_iff (db : Db) (domain : String)
    (args : Args) (tmpl : String) (output : ClassificationOutput)
    (now : Nat) :
    (process_domain db domain args tmpl (Except.ok output) now).2 =
      Except.ok () ∧
    (process_domain db domain args tmpl (Except.ok output) now).1.events =
      db.events ++
        [⟨domain, Action.classifying,
          ActionData.classifyingData args.ollamaModel
            (compute_prompt_hash tmpl), now⟩,
         ⟨domain, Action.classified,
          ActionData.classifiedData output.classification.is_matching_site
            output.classification.confidence args.classificationType
            output.metadata.http_status, now⟩] ∧
    ((∃ c,
        (process_domain db domain args tmpl
            (Except.ok output) now).1.classifications =
          db.classifications ++ [c] ∧
        c.domain = domain ∧
        c.classificationType = args.classificationType ∧
        c.confidence = output.classification.confidence ∧
        c.validOn = now ∧
        c.validUntil = now + args.ttlDays * secondsPerDay) ↔
      (output.classification.is_matching_site = true ∧
        args.minConfidence ≤ output.classification.confidence)) ∧
    (¬(output.classification.is_matching_site = true ∧
        args.minConfidence ≤ output.classification.confidence) →
      (process_domain db domain args tmpl
          (Except.ok output) now).1.classifications = db.classifications ∧
      (process_domain db domain args tmpl
          (Except.ok output) now).1.domains = db.domains ∧
      (process_domain db domain args tmpl
          (Except.ok output) now).1.prompts = db.prompts) := by
  rw [process_domain_ok_eq]
  by_cases hcond : output.classification.is_matching_site = true ∧
      args.minConfidence ≤ output.classification.confidence
  · simp only [if_pos hcond]
    refine ⟨trivial, ?_, ?_, fun hn => absurd hcond hn⟩
    · rw [update_projections_events]
      simp [insert_event, List.append_assoc]
    · constructor
      · intro _
        exact hcond
      · intro _
        have hcls := update_projections_classifications
          (insert_event (insert_event db domain Action.classifying
            (ActionData.classifyingData args.ollamaModel
              (compute_prompt_hash tmpl)) now) domain Action.classified
            (ActionData.classifiedData
              output.classification.is_matching_site
              output.classification.confidence args.classificationType
              output.metadata.http_status) now)
          domain args.classificationType output.classification.confidence
          args.ollamaModel tmpl output.metadata.prompt_hash args.ttlDays now
        exact ⟨_, hcls, rfl, rfl, rfl, rfl, rfl⟩
  · simp only [if_neg hcond]
    refine ⟨trivial, ?_, ?_, fun _ => ⟨rfl, rfl, rfl⟩⟩
    · simp [insert_event, List.append_assoc]
    · constructor
      · rintro ⟨c, hc, -⟩
        have hlen := congrArg List.length hc
        simp only [insert_event] at hlen
        simp at hlen
      · intro h
        exact absurd h hcond

/-- C7, counterexample. When every attempt fails, the delays actually slept
by the retry loop are 500 ms and then 1000 ms: with `max_attempts = 3`
there are only two gaps between attempts, and the loop computes
`500 * (1 << (attempt - 1))` only for attempts 1 and 2, so no 2000 ms delay
ever occurs, contradicting the claimed delay sequence 500, 1000, 2000. -/
theorem fetch_delays_counterexample :
    (fetch_domain_run (fun _ => Except.error "connection refused")).1 =
      [500, 1000] ∧
    ¬((fetch_domain_run (fun _ => Except.error "connection refused")).1 =
      [500, 1000, 2000]) := by
  constructor
  · rfl
  · intro h
    rw [show (fetch_domain_run
        (fun _ => Except.error "connection refused")).1 = [500, 1000]
      from rfl] at h
    simp at h

/-- C7, amended. The fetch makes exactly 3 attempts; the backoff delays
slept between consecutive attempts are 500 ms and 1000 ms (the doubling
formula would produce 2000 ms only before a fourth attempt, which never
happens); and when every attempt fails, the classifier still proceeds to
the LLM call with the synthetic fetch-error metadata and, when the LLM call
succeeds, emits a success document rather than an error. -/
theorem fetch_retry_then_synthetic_metadata (e : Nat → String)
    (domain ollamaModel tmpl : String)
    (llm : SiteMetadata → String → Except ErrorInfo Classification)
    (cls : Classification)
    (hllm : llm (SiteMetadata.from_fetch_error domain (e 2)) tmpl =
      Except.ok cls) :
    maxAttempts = 3 ∧
    fetch_domain_run (fun i => Except.error (e i)) =
      ([500, 1000], Except.error (e 2)) ∧
    ∀ parse,
      run_classification domain ollamaModel (Except.ok tmpl)
        (fetchToDocument parse
          (fetch_domain_run (fun i => Except.error (e i))).2) llm =
      Except.ok
        { domain := domain
          result := "classified"
          classification := cls
          metadata :=
            { http_status := 0
              model := ollamaModel
              prompt_hash := compute_prompt_hash tmpl } } := by
  refine ⟨rfl, rfl, fun parse => ?_⟩
  show run_classification domain ollamaModel (Except.ok tmpl)
      (Except.error (e 2)) llm = _
  dsimp only [run_classification]
  rw [hllm]
  rfl

/-- Witness for C7 at concrete inputs: a constant failure outcome and an
LLM stub returning a positive verdict. -/
theorem fetch_retry_then_synthetic_metadata_witness :
    (fun (_ : SiteMetadata) (_ : String) =>
        (Except.ok ⟨true, 1⟩ : Except ErrorInfo Classification))
      (SiteMetadata.from_fetch_error "unreachable.example"
        "connection refused") "tpl" = Except.ok ⟨true, 1⟩ ∧
    (maxAttempts = 3 ∧
     fetch_domain_run (fun _ => Except.error "connection refused") =
       ([500, 1000], Except.error "connection refused") ∧
     run_classification "unreachable.example" "llama2" (Except.ok "tpl")
         (fetchToDocument (fun _ => Node.text "")
           (fetch_domain_run (fun _ => Except.error "connection refused")).2)
         (fun _ _ => Except.ok ⟨true, 1⟩) =
       Except.ok
         { domain := "unreachable.example"
           result := "classified"
           classification := ⟨true, 1⟩
           metadata :=
             { http_status := 0
               model := "llama2"
               prompt_hash := compute_prompt_hash "tpl" } }) := by
  have h := fetch_retry_then_synthetic_metadata
    (fun _ => "connection refused") "unreachable.example" "llama2" "tpl"
    (fun _ _ => Except.ok ⟨true, 1⟩) ⟨true, 1⟩ rfl
  exact ⟨rfl, h.1, h.2.1, h.2.2 (fun _ => Node.text "")⟩

/-- C8. Metadata extraction evaluated on `sampleDoc`: title and description
come out as the claim states, but the three og fields come out `none` (the
code reads the TEXT of the meta elements, which are void and have no text,
instead of their content attribute) and `language` comes out as the whole
document text (the code reads the TEXT of the html element instead of its
lang attribute); the spec-written extraction disagrees with the code on the
same document. -/
theorem extraction_og_and_language_diverge :
    (extract_metadata "awesomegames.example" sampleDoc 200).toOption =
      some
        { domain := "awesomegames.example"
          title := some "Awesome Game Store"
          description := some "The ultimate destination for PC gaming"
          og_title := none
          og_description := none
          og_site_name := none
          language := some "Awesome Game StoreWelcome"
          http_status := 200
          fetch_error := none } ∧
    extractMetadataSpec "awesomegames.example" sampleDoc 200 =
      { domain := "awesomegames.example"
        title := some "Awesome Game Store"
        description := some "The ultimate destination for PC gaming"
        og_title := some "Awesome Game Store OG"
        og_description := some "Digital distribution platform"
        og_site_name := some "AGS"
        language := some "en"
        http_status := 200
        fetch_error := none } ∧
    ¬((extract_metadata "awesomegames.example" sampleDoc 200).toOption =
      some (extractMetadataSpec "awesomegames.example" sampleDoc 200)) := by
  refine ⟨by decide, by decide, by decide⟩

set_option maxRecDepth 20000

/-- The SHA-256 model matches the FIPS 180-2 test vector for "abc". -/
theorem sha256_matches_test_vector :
    compute_prompt_hash "abc" =
      "sha256:ba7816bf8f01cfea414140de5dae2223b00361a396177a9cb410ff61f20015ad" := by
  decide

/-- `ensure_prompt` when a row with the hash exists. -/
theorem ensure_prompt_found (db : Db) (C h : String) (p : PromptRow)
    (hf : db.prompts.find? (fun q => decide (q.hash = h)) = some p) :
    ensure_prompt db C h = (db, p.id) := by
  unfold ensure_prompt
  rw [hf]

/-- `ensure_prompt` when no row with the hash exists. -/
theorem ensure_prompt_notfound (db : Db) (C h : String)
    (hf : db.prompts.find? (fun q => decide (q.hash = h)) = none) :
    ensure_prompt db C h =
      ({ db with
          prompts := db.prompts ++ [⟨freshPromptId db, C, h⟩] },
        freshPromptId db) := by
  unfold ensure_prompt
  rw [hf]

/-- C9. Prompt storage is content addressed and idempotent. Over any prompts
table in which no row already pairs the hash of C with a different content
(the hash column is unique and every writer stores a content with its own
hash), for every content C: the hash passed for C is the deterministic
function sha256: ++ hex(SHA-256(C)); repeating the insert-or-ignore returns
the same id and leaves the table unchanged; and selecting by that hash
returns C itself. -/
theorem prompt_storage_content_addressed_roundtrip (db : Db) (C : String)
    (hinj : ∀ p ∈ db.prompts,
      p.hash = compute_prompt_hash C → p.content = C) :
    compute_prompt_hash C =
      "sha256:" ++ hexEncode (sha256Bytes (utf8Bytes C)) ∧
    ensure_prompt (ensure_prompt db C (compute_prompt_hash C)).1 C
        (compute_prompt_hash C) =
      ensure_prompt db C (compute_prompt_hash C) ∧
    select_prompt_by_hash (ensure_prompt db C (compute_prompt_hash C)).1
        (compute_prompt_hash C) = some C := by
  cases hf : db.prompts.find?
      (fun p => decide (p.hash = compute_prompt_hash C)) with
  | some p =>
      have hp := List.find?_some hf
      rw [decide_eq_true_eq] at hp
      have hcontent := hinj p (List.mem_of_find?_eq_some hf) hp
      have he := ensure_prompt_found db C (compute_prompt_hash C) p hf
      refine ⟨rfl, ?_, ?_⟩
      · rw [he]
        exact he
      · rw [he]
        unfold select_prompt_by_hash
        rw [hf]
        simp [hcontent]
  | none =>
      have he := ensure_prompt_notfound db C (compute_prompt_hash C) hf
      have happ : ({ db with
          prompts := db.prompts ++
            [⟨freshPromptId db, C, compute_prompt_hash C⟩] } :
            Db).prompts.find?
          (fun q => decide (q.hash = compute_prompt_hash C)) =
          some ⟨freshPromptId db, C, compute_prompt_hash C⟩ := by
        show (db.prompts ++
            ([⟨freshPromptId db, C, compute_prompt_hash C⟩] :
              List PromptRow)).find?
            (fun q => decide (q.hash = compute_prompt_hash C)) =
          some ⟨freshPromptId db, C, compute_prompt_hash C⟩
        rw [List.find?_append, hf]
        simp
      refine ⟨rfl, ?_, ?_⟩
      · rw [he]
        exact ensure_prompt_found _ C _ _ happ
      · rw [he]
        unfold select_prompt_by_hash
        rw [happ]
        rfl

/-- Witness for C9 on the empty store and the content "abc". -/
theorem prompt_storage_content_addressed_roundtrip_witness :
    (∀ p ∈ ([] : List PromptRow),
      p.hash = compute_prompt_hash "abc" → p.content = "abc") ∧
    (compute_prompt_hash "abc" =
      "sha256:" ++ hexEncode (sha256Bytes (utf8Bytes "abc")) ∧
    ensure_prompt
        (ensure_prompt ⟨[], [], [], []⟩ "abc"
          (compute_prompt_hash "abc")).1 "abc" (compute_prompt_hash "abc") =
      ensure_prompt ⟨[], [], [], []⟩ "abc" (compute_prompt_hash "abc") ∧
    select_prompt_by_hash
        (ensure_prompt ⟨[], [], [], []⟩ "abc"
          (compute_prompt_hash "abc")).1 (compute_prompt_hash "abc") =
      some "abc") :=
  ⟨by simp,
   prompt_storage_content_addressed_roundtrip ⟨[], [], [], []⟩ "abc"
     (by simp)⟩

/-- The event log written by the success path of `process_domain`: the
`classifying` event then the `classified` event, in both branches. -/
theorem process_domain_ok_events (db : Db) (domain : String) (args : Args)
    (tmpl : String) (output : ClassificationOutput) (now : Nat) :
    (process_domain db domain args tmpl (Except.ok output) now).1.events =
      db.events ++
        [⟨domain, Action.classifying,
          ActionData.classifyingData args.ollamaModel
            (compute_prompt_hash tmpl), now⟩,
         ⟨domain, Action.classified,
          ActionData.classifiedData output.classification.is_matching_site
            output.classification.confidence args.classificationType
            output.metadata.http_status, now⟩] := by
  rw [process_domain_ok_eq]
  split_ifs with hcond
  · show (update_projections _ _ _ _ _ _ _ _ _).events = _
    rw [update_projections_events]
    simp [insert_event, List.append_assoc]
  · simp [insert_event, List.append_assoc]

/-- C10. When every HTTP fetch attempt fails but the LLM call succeeds, the
classifier emits a success document (`result = "classified"`) whose
`metadata.http_status` is 0, a value outside the real HTTP status-code
range (all real status codes are at least 100); and the `classified` event
the queue processor then records carries that status 0. -/
theorem fetch_failure_yields_status_zero (db : Db)
    (domain qdomain ollamaModel tmpl fetchErr : String) (args : Args)
    (now : Nat)
    (llm : SiteMetadata → String → Except ErrorInfo Classification)
    (cls : Classification)
    (hllm : llm (SiteMetadata.from_fetch_error domain fetchErr) tmpl =
      Except.ok cls) :
    ∃ o,
      run_classification domain ollamaModel (Except.ok tmpl)
          (Except.error fetchErr) llm = Except.ok o ∧
      o.result = "classified" ∧
      o.metadata.http_status = 0 ∧
      o.metadata.http_status < 100 ∧
      ((process_domain db qdomain args tmpl
          (Except.ok o) now).1.events.map Event.actionData).getLast? =
        some (ActionData.classifiedData cls.is_matching_site cls.confidence
          args.classificationType 0) := by
  refine ⟨{ domain := domain
            result := "classified"
            classification := cls
            metadata :=
              { http_status := 0
                model := ollamaModel
                prompt_hash := compute_prompt_hash tmpl } },
    ?_, rfl, rfl, by show (0 : Nat) < 100; decide, ?_⟩
  · dsimp only [run_classification]
    rw [hllm]
    rfl
  · rw [process_domain_ok_events]
    rw [show ∀ (l : List Event) (a b : Event), l ++ [a, b] = (l ++ [a]) ++ [b]
      from fun l a b => by simp]
    simp only [List.map_append, List.map_cons, List.map_nil,
      List.getLast?_concat]

/-- Witness for C10 at concrete inputs: an empty store, a fetch error
message and an LLM stub returning a confident positive verdict. -/
theorem fetch_failure_yields_status_zero_witness :
    (fun (_ : SiteMetadata) (_ : String) =>
        (Except.ok ⟨true, 9/10⟩ : Except ErrorInfo Classification))
      (SiteMetadata.from_fetch_error "down.example" "connect timeout")
      "tpl" = Except.ok ⟨true, 9/10⟩ ∧
    ∃ o,
      run_classification "down.example" "llama2" (Except.ok "tpl")
          (Except.error "connect timeout")
          (fun _ _ => Except.ok ⟨true, 9/10⟩) = Except.ok o ∧
      o.result = "classified" ∧
      o.metadata.http_status = 0 ∧
      o.metadata.http_status < 100 ∧
      ((process_domain ⟨[], [], [], []⟩ "down.example"
          ⟨"gaming", "llama2", 4/5, 10⟩ "tpl"
          (Except.ok o) 77).1.events.map Event.actionData).getLast? =
        some (ActionData.classifiedData true (9/10) "gaming" 0) :=
  ⟨rfl,
   fetch_failure_yields_status_zero ⟨[], [], [], []⟩ "down.example"
     "down.example" "llama2" "tpl" "connect timeout"
     ⟨"gaming", "llama2", 4/5, 10⟩ 77
     (fun _ _ => Except.ok ⟨true, 9/10⟩) ⟨true, 9/10⟩ rfl⟩

/-- Witness for C1 at a concrete high-confidence matching output: the
processing result is `Ok`, so the message is acknowledged. -/
theorem classification_committed_iff_witness :
    (process_domain ⟨[], [], [], []⟩ "gaming1.example"
        ⟨"gaming", "llama2", 4/5, 10⟩ "tpl"
        (Except.ok ⟨"gaming1.example", "classified", ⟨true, 9/10⟩,
          ⟨200, "llama2", "h"⟩⟩) 50).2 = Except.ok () :=
  (classification_committed_iff ⟨[], [], [], []⟩ "gaming1.example"
    ⟨"gaming", "llama2", 4/5, 10⟩ "tpl"
    ⟨"gaming1.example", "classified", ⟨true, 9/10⟩, ⟨200, "llama2", "h"⟩⟩
    50).1

/-- Witness for C6 at a concrete store whose only event for the domain is
`queued`. -/
theorem should_queue_false_iff_witness :
    should_queue_domain
        ⟨[], [], [],
          [⟨"q.example", Action.queued, ActionData.emptyObject, 3⟩]⟩
        "q.example" 10 = false ↔
      ∃ e, get_latest_event
          ⟨[], [], [],
            [⟨"q.example", Action.queued, ActionData.emptyObject, 3⟩]⟩
          "q.example" = some e ∧
        (e.action = Action.queued ∨ e.action = Action.classifying ∨
         e.action = Action.error ∨
         (e.action = Action.classified ∧
          ∃ c ∈ ([] : List ClassificationRow),
            c.domain = "q.example" ∧ 10 < c.validUntil)) :=
  should_queue_false_iff
    ⟨[], [], [], [⟨"q.example", Action.queued, ActionData.emptyObject, 3⟩]⟩
    "q.example" 10

end DnsSmartBlock
